import Mathlib

/-!
Shallow embedding of the YoutubeDownloader repository
(`youtube_downloader_ytdlp.py`, the command-line front-end, and
`youtube_downloader_ytdlp_gui.py`, the desktop front-end).

The two external engines (`yt-dlp`, `ffmpeg`), the filesystem and the
JSON library are external collaborators: each subprocess invocation's
outcome, the result of `os.makedirs`, the truthiness/title of the object
produced by `json.loads`, and the answers of `shutil.which` are supplied
by an environment `Env`.  The orchestration logic itself — the exact
command lines built, the order of checks, the signals/prints emitted,
the one-shot video fallback, the progress-line scraping and the
`[30,70]` rescaling — is translated statement by statement from the
Python source.

Python string primitives (`split`, `strip`, `in`) are modelled over
`List Char` by structural recursion.  The value produced by `float()`
on a percentage token is an exact decimal, represented as `DecNum`
(an integer numerator over a power-of-ten denominator); machine-float
rounding is abstracted away, and `float()` is modelled for plain signed
decimal literals (exponent, `inf`/`nan` and underscore forms do not
occur in percentage tokens).
-/

/-- The character class of `re.sub(r'[\\/*?:"<>|]', "", title)`:
backslash, slash, star, question mark, colon, double quote, angle
brackets, pipe. -/
def invalidChar (c : Char) : Bool :=
  c = '\\' || c = '/' || c = '*' || c = '?' || c = ':' || c = '"' ||
  c = '<' || c = '>' || c = '|'

/-- `re.sub(pat, "", s)` for a single-character class: scan the string,
dropping every character matched by the class (the replacement is the
empty string). -/
def reSubDelete (p : Char → Bool) : List Char → List Char
  | [] => []
  | c :: cs => if p c then reSubDelete p cs else c :: reSubDelete p cs

/-- `sanitize_filename(title)` — identical in both source files. -/
def sanitize_filename (title : String) : String :=
  ⟨reSubDelete invalidChar title.toList⟩

/-- `os.path.join(a, b)` on POSIX for the shapes used here: an absolute
second component replaces the first; otherwise the components are glued
with a single separator. -/
def pyJoin (a b : String) : String :=
  if b.data.headD ' ' = '/' then b
  else if a.data = [] then b
  else if a.data.getLastD ' ' = '/' then a ++ b
  else a ++ "/" ++ b

/-- `os.path.join(output_path, sanitized_title + ".mp4")`. -/
def videoFileOf (outputPath title : String) : String :=
  pyJoin outputPath (sanitize_filename title ++ ".mp4")

/-- `os.path.join(output_path, sanitized_title + ".mp3")`. -/
def audioFileOf (outputPath title : String) : String :=
  pyJoin outputPath (sanitize_filename title ++ ".mp3")

/-- The whitespace class of Python's `str.strip()` / `float()`. -/
def isPySpace (c : Char) : Bool :=
  c = ' ' || c = '\t' || c = '\n' || c = '\r' || c = '\x0b' || c = '\x0c'

/-- Python `s.strip()`: drop whitespace from both ends. -/
def pyStrip (l : List Char) : List Char :=
  ((l.dropWhile isPySpace).reverse.dropWhile isPySpace).reverse

/-- `pyStrip` on `String`s (the GUI logs `line.strip()`). -/
def pyStripStr (s : String) : String :=
  ⟨pyStrip s.data⟩

/-- Python `s.split(sep)` for a one-character separator: split at every
occurrence, keeping empty fields (`"a%%b".split('%') = ['a','','b']`,
`"".split('%') = ['']`). -/
def splitOnChar (sep : Char) : List Char → List (List Char)
  | [] => [[]]
  | c :: cs =>
    if c = sep then [] :: splitOnChar sep cs
    else
      match splitOnChar sep cs with
      | [] => [[c]]
      | h :: t => (c :: h) :: t

/-- Value of a digit character. -/
def digitVal (c : Char) : Nat := c.toNat - 48

/-- Value of a digit string read left to right. -/
def digitsVal (l : List Char) : Nat :=
  l.foldl (fun a c => a * 10 + digitVal c) 0

/-- An exact decimal number: the value `num / 10 ^ pow`.  This is the
result of `float()` on the decimal literals scraped from progress
lines, kept exact instead of rounded to a binary float. -/
structure DecNum where
  num : ℤ
  pow : ℕ
deriving Repr, DecidableEq

/-- The rational value of a `DecNum`. -/
def DecNum.toRat (d : DecNum) : ℚ := (d.num : ℚ) / (10 : ℚ) ^ d.pow

/-- Unsigned part of a Python `float()` literal: digits with at most one
decimal point, at least one digit overall (`"12"`, `"12."`, `".5"`).
The value of `i.f` is `digits(i ++ f) / 10 ^ |f|`. -/
def parseUnsignedDec (l : List Char) : Option DecNum :=
  match splitOnChar '.' l with
  | [ip] =>
    if ip ≠ [] ∧ ip.all Char.isDigit then
      some ⟨digitsVal ip, 0⟩
    else none
  | [ip, fp] =>
    if (ip ++ fp) ≠ [] ∧ ip.all Char.isDigit ∧ fp.all Char.isDigit then
      some ⟨digitsVal (ip ++ fp), fp.length⟩
    else none
  | _ => none

/-- `float(s)` restricted to plain signed decimal literals (Python's
`float()` also strips surrounding whitespace). -/
def pyFloatDec (l : List Char) : Option DecNum :=
  match pyStrip l with
  | '-' :: rest => (parseUnsignedDec rest).map (fun d => ⟨-d.num, d.pow⟩)
  | '+' :: rest => parseUnsignedDec rest
  | t => parseUnsignedDec t

/-- `line.split('%')[0].strip().split(' ')[-1]` from the GUI progress
loop. -/
def percentToken (line : List Char) : List Char :=
  (splitOnChar ' ' (pyStrip ((splitOnChar '%' line).headD []))).getLastD []

/-- The number the GUI loop extracts from one engine output line:
`none` when the line holds no `%` or `float()` raises (the bare
`except: pass`). -/
def parsePct (line : String) : Option DecNum :=
  if line.data.contains '%' then pyFloatDec (percentToken line.data) else none

/-- Python `int()` on a real value: truncation toward zero. -/
def pyInt (q : ℚ) : ℤ := if 0 ≤ q then ⌊q⌋ else ⌈q⌉

/-- `int(30 + (progress * 0.4))`, computed exactly: for `p = n / 10^k`,
`30 + p * 2/5 = (150 * 10^k + 2*n) / (5 * 10^k)`, truncated toward zero
(`Int.tdiv` is Python's `int()` on a quotient with positive
denominator).  `scalePct_eq_pyInt` below certifies this against the
source formula. -/
def scalePct (d : DecNum) : ℤ :=
  Int.tdiv (150 * 10 ^ d.pow + 2 * d.num) (5 * 10 ^ d.pow)


/-! ## The environment: external collaborators

Subprocess outcomes, `shutil.which`, `os.makedirs`, `os.path.abspath`
and `json.loads` are external to the repository; one `Env` fixes their
behaviour for a single run. -/

/-- Outcome of one `subprocess.run(cmd, capture_output=True)`. -/
structure ProcResult where
  exitCode : ℤ
  stdout : String
  stderr : String
deriving Repr, DecidableEq

/-- What the run observes of the object `json.loads` returns: its
truthiness (`if not video_info`) and its `'title'` entry
(`video_info.get('title', 'video')`). -/
structure PyObj where
  truthy : Bool
  title : Option String
deriving Repr, DecidableEq

/-- External behaviour for one request.  `metaParse` is `json.loads`
applied to the metadata invocation's stdout, as an oracle (`none` means
it raised, with message `metaParseErr`).  `videoLines`/`videoExit` are
the streamed output and exit code of the GUI's primary video `Popen`;
`videoResult` is the CLI's primary video `subprocess.run`. -/
structure Env where
  which : String → Bool
  mkdirError : Option String
  metaResult : ProcResult
  metaParse : Option PyObj
  metaParseErr : String
  videoLines : List String
  videoExit : ℤ
  videoResult : ProcResult
  fallbackResult : ProcResult
  audioResult : ProcResult
  audioDirectResult : ProcResult
  absPath : String → String

/-- One observable step of a run: a Qt signal emission (GUI), a printed
line (CLI, rendered as `log`), or the spawn of a subprocess. -/
inductive Event where
  | progress (n : ℤ)
  | status (s : String)
  | log (s : String)
  | error (s : String)
  | finished (s : String)
  | spawn (argv : List String)
deriving Repr, DecidableEq

/-- Terminal state of one orchestrator run. -/
inductive RunResult where
  | missingDeps (deps : List String)
  | crashed (msg : String)
  | metaError (msg : String)
  | silentStop
  | videoError (msg : String)
  | audioError (msg : String)
  | finished (path : String)
deriving Repr, DecidableEq

/-- `["yt-dlp", "--dump-json", url]`. -/
def metaCmd (url : String) : List String :=
  ["yt-dlp", "--dump-json", url]

/-- The GUI's primary video-fetch command. -/
def videoCmd (videoFile url : String) : List String :=
  ["yt-dlp", "-f", "bestvideo[ext=mp4]+bestaudio[ext=m4a]/best[ext=mp4]/best",
   "-o", videoFile, "--progress", url]

/-- The CLI's primary video-fetch command (no `--progress`). -/
def videoCmdCLI (videoFile url : String) : List String :=
  ["yt-dlp", "-f", "bestvideo[ext=mp4]+bestaudio[ext=m4a]/best[ext=mp4]/best",
   "-o", videoFile, url]

/-- The single fallback video-fetch command, identical in both
front-ends: `["yt-dlp", "-f", "best", "-o", video_file, url]`. -/
def fallbackCmd (videoFile url : String) : List String :=
  ["yt-dlp", "-f", "best", "-o", videoFile, url]

/-- The `ffmpeg` audio-extraction command. -/
def ffmpegCmd (videoFile audioFile : String) : List String :=
  ["ffmpeg", "-i", videoFile, "-vn", "-acodec", "libmp3lame", "-q:a", "2",
   audioFile, "-y"]

/-- The GUI's direct audio-download command (audio-only runs). -/
def audioDirectCmd (audioFile url : String) : List String :=
  ["yt-dlp", "-x", "--audio-format", "mp3", "--audio-quality", "0",
   "-o", audioFile, url]

/-- `check_dependencies` (GUI method) / the probing part of the CLI's
`check_dependencies`: `shutil.which` on each tool, collecting the
missing ones in order. -/
def check_dependencies (env : Env) : List String :=
  (if !env.which "yt-dlp" then ["yt-dlp"] else []) ++
  (if !env.which "ffmpeg" then ["ffmpeg"] else [])

/-- The GUI's missing-dependencies error message. -/
def depsErrorMsg (missing : List String) : String :=
  "Missing required dependencies: " ++ String.intercalate ", " missing ++
  "\n\nTo install them on macOS using Homebrew:\nbrew install " ++
  String.intercalate " " missing

/-- The GUI's metadata-failure message:
`result.stderr or "Failed to get video information"`. -/
def metaErrorMsg (r : ProcResult) : String :=
  "Error getting video info: " ++
  (if r.stderr = "" then "Failed to get video information" else r.stderr)

/-- Events of one iteration of the GUI's streaming loop body for a
truthy line: `log.emit(line.strip())`, then, when the line holds a `%`
and the token parses, `progress.emit(int(30 + progress * 0.4))`. -/
def lineEvents (line : String) : List Event :=
  Event.log (pyStripStr line) ::
    (match parsePct line with
     | some p => [Event.progress (scalePct p)]
     | none => [])

/-- The whole streaming loop over the lines read from the child's
stdout (`if line:` skips the empty string returned at EOF). -/
def eventsOfLines : List String → List Event
  | [] => []
  | l :: ls => (if l = "" then [] else lineEvents l) ++ eventsOfLines ls

/-- Outcome of one optional pipeline leg: the events it emitted, and
`some msg` when it ended the run with `error.emit(msg)`. -/
inductive LegResult where
  | ok (events : List Event)
  | fail (events : List Event) (msg : String)
deriving Repr, DecidableEq

/-- The events of a `LegResult`. -/
def LegResult.events : LegResult → List Event
  | .ok ev => ev
  | .fail ev _ => ev

/-- The GUI's FETCH_VIDEO leg: primary `Popen` with streamed progress,
then on non-zero exit the single `-f best` fallback, whose non-zero
exit ends the run with the fallback's stderr. -/
def videoLeg (env : Env) (url videoFile : String) : LegResult :=
  let ev := [Event.status "Downloading MP4 (video)...",
             Event.log "\nDownloading video...",
             Event.progress 30,
             Event.spawn (videoCmd videoFile url)] ++
            eventsOfLines env.videoLines
  if env.videoExit ≠ 0 then
    let ev := ev ++ [Event.status "Trying alternative video format...",
                     Event.log "\nTrying alternative video format...",
                     Event.spawn (fallbackCmd videoFile url)]
    if env.fallbackResult.exitCode ≠ 0 then
      .fail (ev ++ [Event.error ("Error downloading video: " ++
        env.fallbackResult.stderr)]) ("Error downloading video: " ++
        env.fallbackResult.stderr)
    else .ok (ev ++ [Event.log "MP4 download complete!"])
  else .ok (ev ++ [Event.log "MP4 download complete!"])

/-- The GUI's audio leg: `ffmpeg` extraction from the fetched video
when the video leg ran, otherwise the direct `yt-dlp -x` download. -/
def audioLeg (env : Env) (url videoFile audioFile : String)
    (downloadVideo : Bool) : LegResult :=
  let ev := [Event.status "Extracting MP3 (audio)...",
             Event.log "\nExtracting MP3 audio...",
             Event.progress 70]
  if downloadVideo then
    let ev := ev ++ [Event.spawn (ffmpegCmd videoFile audioFile)]
    if env.audioResult.exitCode ≠ 0 then
      .fail (ev ++ [Event.error ("Error extracting audio: " ++
        env.audioResult.stderr)]) ("Error extracting audio: " ++
        env.audioResult.stderr)
    else .ok (ev ++ [Event.log "MP3 extraction complete!"])
  else
    let ev := ev ++ [Event.spawn (audioDirectCmd audioFile url)]
    if env.audioDirectResult.exitCode ≠ 0 then
      .fail (ev ++ [Event.error ("Error downloading audio: " ++
        env.audioDirectResult.stderr)]) ("Error downloading audio: " ++
        env.audioDirectResult.stderr)
    else .ok (ev ++ [Event.log "MP3 extraction complete!"])

/-- The optional FETCH_VIDEO step: the video leg when requested,
otherwise nothing (`if self.download_video:`). -/
def videoStep (env : Env) (url videoFile : String)
    (downloadVideo : Bool) : LegResult :=
  if downloadVideo then videoLeg env url videoFile else .ok []

/-- The optional audio step: the audio leg when requested, otherwise
nothing (`if self.download_audio:`). -/
def audioStep (env : Env) (url videoFile audioFile : String)
    (downloadVideo downloadAudio : Bool) : LegResult :=
  if downloadAudio then audioLeg env url videoFile audioFile downloadVideo
  else .ok []

namespace DownloadWorker

/-- `DownloadWorker.run(self)` of the GUI front-end, step by step:
dependency check, `os.makedirs`, `get_video_info` (status, progress 10,
metadata spawn, error handling, progress 20, the `if not video_info`
silent return), title/paths derivation, the optional video leg, the
optional audio leg, and the final `progress 100` / `finished`
signals.  Returns the full event trace and the terminal state. -/
def run (env : Env) (url outputPath : String)
    (downloadVideo downloadAudio : Bool) : List Event × RunResult :=
  let missing := check_dependencies env
  if missing ≠ [] then
    ([Event.error (depsErrorMsg missing)], RunResult.missingDeps missing)
  else
    match env.mkdirError with
    | some e => ([Event.error ("Error: " ++ e)], RunResult.crashed e)
    | none =>
      let pre := [Event.status "Getting video information...",
                  Event.progress 10,
                  Event.spawn (metaCmd url)]
      if env.metaResult.exitCode ≠ 0 then
        (pre ++ [Event.error (metaErrorMsg env.metaResult)],
         RunResult.metaError (metaErrorMsg env.metaResult))
      else
        match env.metaParse with
        | none =>
          (pre ++ [Event.error ("Error while getting video info: " ++
             env.metaParseErr)],
           RunResult.metaError ("Error while getting video info: " ++
             env.metaParseErr))
        | some info =>
          let pre := pre ++ [Event.progress 20]
          if !info.truthy then (pre, RunResult.silentStop)
          else
            let videoTitle := info.title.getD "video"
            let sanitized := sanitize_filename videoTitle
            let pre := pre ++ [Event.status ("Downloading: " ++ videoTitle)]
            let videoFile := pyJoin outputPath (sanitized ++ ".mp4")
            let audioFile := pyJoin outputPath (sanitized ++ ".mp3")
            match videoStep env url videoFile downloadVideo with
            | .fail vev m => (pre ++ vev, RunResult.videoError m)
            | .ok vev =>
              match audioStep env url videoFile audioFile downloadVideo
                  downloadAudio with
              | .fail aev m => (pre ++ vev ++ aev, RunResult.audioError m)
              | .ok aev =>
                (pre ++ vev ++ aev ++
                   [Event.progress 100,
                    Event.status "Download complete!",
                    Event.finished outputPath],
                 RunResult.finished outputPath)

end DownloadWorker

/-- The GUI front-end's `start_download` outcome: either a modal
validation error (no worker is created), or a `DownloadWorker` started
with the given arguments. -/
inductive StartOutcome where
  | rejected (msg : String)
  | started (url outputPath : String) (downloadVideo downloadAudio : Bool)
deriving Repr, DecidableEq

/-- `YouTubeDownloaderApp.start_download`: strip the two text fields,
reject an empty locator, an empty output path, or neither toggle set;
otherwise create and start the worker. -/
def start_download (urlText outputPathText : String)
    (downloadMp4 downloadMp3 : Bool) : StartOutcome :=
  let url := pyStripStr urlText
  let outputPath := pyStripStr outputPathText
  if url = "" then .rejected "Please enter a YouTube URL"
  else if outputPath = "" then .rejected "Please select an output folder"
  else if !downloadMp4 && !downloadMp3 then
    .rejected "Please select at least one format to download"
  else .started url outputPath downloadMp4 downloadMp3

/-! ## The command-line front-end (`youtube_downloader_ytdlp.py`)

Prints are rendered as `Event.log`; the function's boolean result and
the spawned subprocesses are kept alongside. -/

/-- The CLI's `check_dependencies()`: same probe as the GUI's, plus the
installation-hint prints; returns `True` exactly when nothing is
missing. -/
def check_dependencies_cli (env : Env) : List Event × Bool :=
  let missing := check_dependencies env
  if missing = [] then ([], true)
  else
    ([Event.log ("Missing required dependencies: " ++
        String.intercalate ", " missing),
      Event.log "\nTo install the dependencies on macOS using Homebrew:",
      Event.log "brew install yt-dlp ffmpeg"],
     false)

/-- `download_video(url, output_path)` of the CLI front-end: dependency
check, `os.makedirs`, `get_video_info` (with its `if not video_info`
check), title/paths derivation, primary video fetch with the single
`-f best` fallback, then the unconditional `ffmpeg` audio
extraction. -/
def download_video (env : Env) (url outputPath : String) :
    List Event × Bool :=
  let (dev, ok) := check_dependencies_cli env
  if !ok then (dev, false)
  else
    match env.mkdirError with
    | some e => (dev ++ [Event.log ("Error: " ++ e)], false)
    | none =>
      let ev := dev ++ [Event.log "Getting video information...",
                        Event.spawn (metaCmd url)]
      if env.metaResult.exitCode ≠ 0 then
        (ev ++ [Event.log ("Error getting video info: " ++
                  env.metaResult.stderr),
                Event.log "Failed to get video information"],
         false)
      else
        match env.metaParse with
        | none =>
          (ev ++ [Event.log ("Error while getting video info: " ++
                    env.metaParseErr),
                  Event.log "Failed to get video information"],
           false)
        | some info =>
          if !info.truthy then
            (ev ++ [Event.log "Failed to get video information"], false)
          else
            let videoTitle := info.title.getD "video"
            let sanitized := sanitize_filename videoTitle
            let videoFile := pyJoin outputPath (sanitized ++ ".mp4")
            let audioFile := pyJoin outputPath (sanitized ++ ".mp3")
            let ev := ev ++ [Event.log ("\nDownloading: " ++ videoTitle),
                             Event.log "\nDownloading MP4 (video)...",
                             Event.spawn (videoCmdCLI videoFile url)]
            let afterVideo :=
              if env.videoResult.exitCode ≠ 0 then
                let ev := ev ++
                  [Event.log ("Error downloading video: " ++
                     env.videoResult.stderr),
                   Event.spawn (fallbackCmd videoFile url)]
                if env.fallbackResult.exitCode ≠ 0 then
                  .fail (ev ++
                    [Event.log ("Error downloading video (second attempt): " ++
                       env.fallbackResult.stderr)])
                    ("Error downloading video (second attempt): " ++
                       env.fallbackResult.stderr)
                else LegResult.ok ev
              else LegResult.ok ev
            match afterVideo with
            | .fail ev _ => (ev, false)
            | .ok ev =>
              let ev := ev ++ [Event.log ("MP4 download complete: " ++
                                 videoFile),
                               Event.log "\nExtracting MP3 (audio)...",
                               Event.spawn (ffmpegCmd videoFile audioFile)]
              if env.audioResult.exitCode ≠ 0 then
                (ev ++ [Event.log ("Error extracting audio: " ++
                          env.audioResult.stderr)],
                 false)
              else
                (ev ++ [Event.log ("MP3 extraction complete: " ++ audioFile),
                        Event.log ("\nFiles saved to: " ++
                          env.absPath outputPath)],
                 true)

/-! ## Classifiers over traces -/

/-- Is this event the spawn of any subprocess? -/
def isSpawn : Event → Bool
  | Event.spawn _ => true
  | _ => false

/-- Is this event the spawn of the `-f best` fallback video fetch? -/
def isFallbackSpawn : Event → Bool
  | Event.spawn argv => argv.take 3 == ["yt-dlp", "-f", "best"]
  | _ => false

/-- Is this event the spawn of an audio-producing subprocess (the
`ffmpeg` extraction or the direct `yt-dlp -x` download)? -/
def isAudioSpawn : Event → Bool
  | Event.spawn argv =>
    argv.headD "" == "ffmpeg" || argv.take 2 == ["yt-dlp", "-x"]
  | _ => false

/-- The progress percentages emitted along a trace, in order. -/
def progressValues (tr : List Event) : List ℤ :=
  tr.filterMap (fun e => match e with
    | Event.progress n => some n
    | _ => none)

/-! ## Sample environments for witnesses -/

/-- An environment in which everything succeeds: both tools resolve,
the directory is created, metadata parses to a truthy object titled
`"T"`, and every subprocess exits 0. -/
def envOK : Env :=
  { which := fun _ => true
    mkdirError := none
    metaResult := { exitCode := 0, stdout := "ok", stderr := "" }
    metaParse := some { truthy := true, title := some "T" }
    metaParseErr := ""
    videoLines := []
    videoExit := 0
    videoResult := { exitCode := 0, stdout := "", stderr := "" }
    fallbackResult := { exitCode := 0, stdout := "", stderr := "" }
    audioResult := { exitCode := 0, stdout := "", stderr := "" }
    audioDirectResult := { exitCode := 0, stdout := "", stderr := "" }
    absPath := fun s => s }

/-- An environment whose metadata invocation exits 0 with unparsable
stdout: `json.loads` raises, with stderr `"boom"` left unused. -/
def envBadMeta : Env :=
  { envOK with
    metaResult := { exitCode := 0, stdout := "not json", stderr := "boom" }
    metaParse := none
    metaParseErr := "Expecting value" }

/-- An environment whose metadata invocation exits 1 with diagnostic
text `"boom"` on stderr. -/
def envMetaFail : Env :=
  { envOK with
    metaResult := { exitCode := 1, stdout := "", stderr := "boom" } }

/-- A fully successful environment whose video fetch streams two
well-formed, increasing progress lines. -/
def envLines : Env :=
  { envOK with videoLines := ["25%", " 75.5% x"] }

/-- An environment in which both video-fetch attempts fail in both
front-ends (primary exits 1, fallback exits 1 with stderr `"fb"`). -/
def envVideoFail : Env :=
  { envOK with
    videoExit := 1
    videoResult := { exitCode := 1, stdout := "", stderr := "p1" }
    fallbackResult := { exitCode := 1, stdout := "", stderr := "fb" } }

/-! ## Spec-level lemmas about the progress rescaling -/

/-- `scalePct` is exactly `int(30 + (progress * 0.4))` on the exact
value of the parsed decimal: the integer computation certified against
the source formula. -/
theorem scalePct_eq_pyInt (d : DecNum) :
    scalePct d = pyInt (30 + d.toRat * (2 / 5)) := by
  have hDpos : (0 : ℤ) < 5 * 10 ^ d.pow := by positivity
  have hcast : ((5 * 10 ^ d.pow : ℕ) : ℤ) = 5 * 10 ^ d.pow := by push_cast; ring
  have hval : (30 : ℚ) + d.toRat * (2 / 5) =
      ((150 * 10 ^ d.pow + 2 * d.num : ℤ) : ℚ) / ((5 * 10 ^ d.pow : ℕ) : ℚ) := by
    have h10 : ((10 : ℚ) ^ d.pow) ≠ 0 := by positivity
    unfold DecNum.toRat
    push_cast
    field_simp
    ring
  have hDQ : (0 : ℚ) < ((5 * 10 ^ d.pow : ℕ) : ℚ) := by positivity
  rcases le_or_lt 0 (150 * 10 ^ d.pow + 2 * d.num : ℤ) with hN | hN
  · have hq : (0 : ℚ) ≤ 30 + d.toRat * (2 / 5) := by
      rw [hval]
      exact div_nonneg (by exact_mod_cast hN) (le_of_lt hDQ)
    rw [pyInt, if_pos hq, hval, Rat.floor_intCast_div_natCast,
      scalePct, Int.tdiv_eq_ediv hN (le_of_lt hDpos), hcast]
  · have hq : ¬ (0 : ℚ) ≤ 30 + d.toRat * (2 / 5) := by
      rw [hval, not_le]
      exact div_neg_of_neg_of_pos (by exact_mod_cast hN) hDQ
    have hneg : -(((150 * 10 ^ d.pow + 2 * d.num : ℤ) : ℚ) /
        ((5 * 10 ^ d.pow : ℕ) : ℚ)) =
        ((-(150 * 10 ^ d.pow + 2 * d.num) : ℤ) : ℚ) / ((5 * 10 ^ d.pow : ℕ) : ℚ) := by
      push_cast
      ring
    have hceil : ⌈(30 : ℚ) + d.toRat * (2 / 5)⌉ =
        -((-(150 * 10 ^ d.pow + 2 * d.num)) / ((5 * 10 ^ d.pow : ℕ) : ℤ)) := by
      rw [show (⌈(30 : ℚ) + d.toRat * (2 / 5)⌉ : ℤ) =
            -⌊-((30 : ℚ) + d.toRat * (2 / 5))⌋ by
          rw [Int.floor_neg]; ring_nf,
        hval, hneg, Rat.floor_intCast_div_natCast]
    rw [pyInt, if_neg hq, hceil, scalePct,
      show (150 * 10 ^ d.pow + 2 * d.num : ℤ) =
        -(-(150 * 10 ^ d.pow + 2 * d.num)) by ring,
      Int.neg_tdiv, Int.tdiv_eq_ediv (by omega) (le_of_lt hDpos), hcast]
    simp

/-- `pyInt` is the floor on nonnegative arguments. -/
theorem pyInt_eq_floor {q : ℚ} (h : 0 ≤ q) : pyInt q = ⌊q⌋ := if_pos h

/-- A parsed percentage in `[0,100]` is rescaled into `[30,70]`. -/
theorem scalePct_mem_Icc (d : DecNum) (h0 : 0 ≤ d.toRat)
    (h100 : d.toRat ≤ 100) : 30 ≤ scalePct d ∧ scalePct d ≤ 70 := by
  have hq0 : (0 : ℚ) ≤ 30 + d.toRat * (2 / 5) := by linarith
  rw [scalePct_eq_pyInt, pyInt_eq_floor hq0]
  constructor
  · exact Int.le_floor.mpr (by push_cast; linarith)
  · have h70 : (30 : ℚ) + d.toRat * (2 / 5) ≤ ((70 : ℤ) : ℚ) := by
      push_cast; linarith
    calc ⌊(30 : ℚ) + d.toRat * (2 / 5)⌋ ≤ ⌊((70 : ℤ) : ℚ)⌋ := Int.floor_mono h70
    _ = 70 := Int.floor_intCast 70

/-- Rescaling is monotone on nonnegative parsed percentages. -/
theorem scalePct_mono (d e : DecNum) (h0 : 0 ≤ d.toRat)
    (hde : d.toRat ≤ e.toRat) : scalePct d ≤ scalePct e := by
  have he0 : (0 : ℚ) ≤ e.toRat := le_trans h0 hde
  rw [scalePct_eq_pyInt, scalePct_eq_pyInt,
    pyInt_eq_floor (by linarith), pyInt_eq_floor (by linarith)]
  exact Int.floor_mono (by linarith)

/-! ## Helper lemmas about traces -/

/-- The empty line parses to no percentage. -/
theorem parsePct_empty : parsePct "" = none := by decide

/-- `progressValues` distributes over concatenation. -/
theorem progressValues_append (a b : List Event) :
    progressValues (a ++ b) = progressValues a ++ progressValues b := by
  simp [progressValues]

/-- `progressValues` of the empty trace. -/
theorem progressValues_nil : progressValues [] = [] := rfl

/-- A `log` event contributes no progress value. -/
theorem progressValues_cons_log (s : String) (tr : List Event) :
    progressValues (Event.log s :: tr) = progressValues tr := by
  simp [progressValues]

/-- A `status` event contributes no progress value. -/
theorem progressValues_cons_status (s : String) (tr : List Event) :
    progressValues (Event.status s :: tr) = progressValues tr := by
  simp [progressValues]

/-- A `spawn` event contributes no progress value. -/
theorem progressValues_cons_spawn (argv : List String) (tr : List Event) :
    progressValues (Event.spawn argv :: tr) = progressValues tr := by
  simp [progressValues]

/-- A `finished` event contributes no progress value. -/
theorem progressValues_cons_finished (s : String) (tr : List Event) :
    progressValues (Event.finished s :: tr) = progressValues tr := by
  simp [progressValues]

/-- A `progress` event contributes its value. -/
theorem progressValues_cons_progress (n : ℤ) (tr : List Event) :
    progressValues (Event.progress n :: tr) = n :: progressValues tr := by
  simp [progressValues]

/-- The progress values the streaming loop emits are exactly the
rescalings of the percentages that parse, in order. -/
theorem progressValues_eventsOfLines (ls : List String) :
    progressValues (eventsOfLines ls) =
      (ls.filterMap parsePct).map scalePct := by
  induction ls with
  | nil => rfl
  | cons l ls ih =>
    by_cases hl : l = ""
    · subst hl
      simp [eventsOfLines, List.filterMap_cons, parsePct_empty, ih]
    · cases hp : parsePct l with
      | none =>
        simp [eventsOfLines, hl, lineEvents, hp, progressValues_append,
          progressValues_cons_log, List.filterMap_cons, ih]
      | some p =>
        simp [eventsOfLines, hl, lineEvents, hp, progressValues_append,
          progressValues_cons_log, progressValues_cons_progress,
          progressValues_nil, List.filterMap_cons, ih]

/-- The streaming loop emits only `log` and `progress` events, so any
predicate false on those counts zero over it. -/
theorem countP_eventsOfLines_eq_zero (p : Event → Bool)
    (hlog : ∀ s, p (Event.log s) = false)
    (hprog : ∀ n, p (Event.progress n) = false) (ls : List String) :
    (eventsOfLines ls).countP p = 0 := by
  induction ls with
  | nil => rfl
  | cons l ls ih =>
    by_cases hl : l = ""
    · simp [eventsOfLines, hl, ih]
    · cases hp : parsePct l with
      | none =>
        simp [eventsOfLines, hl, lineEvents, hp, List.countP_cons,
          hlog, ih]
      | some q =>
        simp [eventsOfLines, hl, lineEvents, hp, List.countP_cons,
          hlog, hprog, ih]

/-- Rescaling a list of nonnegative, non-decreasing percentages yields
a non-decreasing list. -/
theorem sorted_map_scalePct (ps : List DecNum)
    (h0 : ∀ p ∈ ps, 0 ≤ p.toRat)
    (hs : List.Pairwise (fun a b => a.toRat ≤ b.toRat) ps) :
    (ps.map scalePct).Sorted (· ≤ ·) := by
  induction ps with
  | nil => simp [List.Sorted]
  | cons a ps ih =>
    rw [List.pairwise_cons] at hs
    rw [List.map_cons, List.Sorted, List.pairwise_cons]
    refine ⟨?_, ih (fun p hp => h0 p (List.mem_cons_of_mem a hp)) hs.2⟩
    intro y hy
    rcases List.mem_map.mp hy with ⟨b, hb, rfl⟩
    exact scalePct_mono a b (h0 a (List.mem_cons_self a ps)) (hs.1 b hb)

/-- `re.sub` with an empty replacement deletes exactly the matched
characters: the scan equals a filter. -/
theorem reSubDelete_eq_filter (p : Char → Bool) (l : List Char) :
    reSubDelete p l = l.filter (fun c => !p c) := by
  induction l with
  | nil => rfl
  | cons c cs ih =>
    by_cases hc : p c <;> simp [reSubDelete, hc, List.filter_cons, ih]

/-- The characters of a sanitized title are the title's characters with
the invalid ones filtered out. -/
theorem sanitize_filename_toList (title : String) :
    (sanitize_filename title).toList =
      title.toList.filter (fun c => !invalidChar c) := by
  simp [sanitize_filename, String.toList, reSubDelete_eq_filter]


/-! ## C4 — sanitation deletes exactly the path-breaking characters -/

/-- C4: for every title, the sanitized name contains none of
`\\ / * ? : " < > |`, and equals the title with exactly those
characters deleted (not replaced). -/
theorem claim_C4_sanitize (title : String) :
    (sanitize_filename title).toList.any invalidChar = false ∧
    (sanitize_filename title).toList =
      title.toList.filter (fun c => !invalidChar c) := by
  refine ⟨?_, sanitize_filename_toList title⟩
  rw [sanitize_filename_toList title]
  simp [List.any_eq_true]

/-! ## C10 — an all-invalid title gives extension-only output paths -/

/-- C10: a title consisting only of removed characters sanitizes to the
empty string, so both output paths are the output directory joined with
a bare extension; no non-empty fallback name is substituted. -/
theorem claim_C10_empty_name (title : String)
    (h : ∀ c ∈ title.toList, invalidChar c = true) (outputPath : String) :
    sanitize_filename title = "" ∧
    videoFileOf outputPath title = pyJoin outputPath ".mp4" ∧
    audioFileOf outputPath title = pyJoin outputPath ".mp3" := by
  have hempty : sanitize_filename title = "" := by
    have : (sanitize_filename title).toList = [] := by
      rw [sanitize_filename_toList title]
      rw [List.filter_eq_nil_iff]
      intro c hc
      simp [h c hc]
    cases hs : sanitize_filename title with
    | mk data => rw [hs] at this; simp [String.toList] at this; simp [this]
  refine ⟨hempty, ?_, ?_⟩ <;>
    simp [videoFileOf, audioFileOf, hempty]

/-- Closed witness for C10 at the concrete title `"\\/*?"`. -/
theorem claim_C10_witness :
    sanitize_filename "\\/*?" = "" ∧
    videoFileOf "downloads" "\\/*?" = pyJoin "downloads" ".mp4" ∧
    audioFileOf "downloads" "\\/*?" = pyJoin "downloads" ".mp3" :=
  claim_C10_empty_name "\\/*?" (by decide) "downloads"

/-! ## C9 — the dependency probe returns exactly the unresolved tools -/

/-- C9: the probe returns exactly the sublist of
`["yt-dlp", "ffmpeg"]` that does not resolve on the search path (empty
when both resolve); the CLI variant reports success exactly on the
empty set; neither probe spawns any subprocess (`check_dependencies`
emits no event at all, and the CLI variant's trace holds only prints). -/
theorem claim_C9_probe (env : Env) :
    check_dependencies env =
      (["yt-dlp", "ffmpeg"].filter (fun t => !env.which t)) ∧
    (check_dependencies env = [] ↔
      (env.which "yt-dlp" = true ∧ env.which "ffmpeg" = true)) ∧
    (check_dependencies_cli env).2 = (check_dependencies env).isEmpty ∧
    ((check_dependencies_cli env).1.countP isSpawn = 0) := by
  by_cases h1 : env.which "yt-dlp" <;> by_cases h2 : env.which "ffmpeg" <;>
    simp [check_dependencies, check_dependencies_cli, h1, h2, isSpawn,
      List.countP_cons]

/-! ## C3 — missing dependencies halt the run before any subprocess -/

/-- C3: when the probe reports a non-empty missing set, the GUI run
terminates in `missingDeps` carrying that list, its whole trace is the
single error signal (whose text lists the missing tools), and no
subprocess is spawned; the CLI run likewise returns failure without
spawning anything. -/
theorem claim_C3_missing_deps (env : Env) (url outputPath : String)
    (downloadVideo downloadAudio : Bool)
    (h : check_dependencies env ≠ []) :
    (DownloadWorker.run env url outputPath downloadVideo downloadAudio).2 =
      RunResult.missingDeps (check_dependencies env) ∧
    (DownloadWorker.run env url outputPath downloadVideo downloadAudio).1 =
      [Event.error (depsErrorMsg (check_dependencies env))] ∧
    (DownloadWorker.run env url outputPath downloadVideo
        downloadAudio).1.countP isSpawn = 0 ∧
    (download_video env url outputPath).2 = false ∧
    (download_video env url outputPath).1.countP isSpawn = 0 := by
  refine ⟨?_, ?_, ?_, ?_, ?_⟩ <;>
    simp [DownloadWorker.run, download_video, check_dependencies_cli, h,
      isSpawn, List.countP_cons]

/-- Closed witness for C3: with neither tool resolvable, the run halts
in `missingDeps ["yt-dlp", "ffmpeg"]` with no subprocess spawned. -/
theorem claim_C3_witness :
    (DownloadWorker.run { envOK with which := fun _ => false } "u" "d"
        true true).2 =
      RunResult.missingDeps
        (check_dependencies { envOK with which := fun _ => false }) ∧
    (DownloadWorker.run { envOK with which := fun _ => false } "u" "d"
        true true).1 =
      [Event.error (depsErrorMsg
        (check_dependencies { envOK with which := fun _ => false }))] ∧
    (DownloadWorker.run { envOK with which := fun _ => false } "u" "d"
        true true).1.countP isSpawn = 0 ∧
    (download_video { envOK with which := fun _ => false } "u" "d").2 =
      false ∧
    (download_video { envOK with which := fun _ => false } "u"
        "d").1.countP isSpawn = 0 :=
  claim_C3_missing_deps { envOK with which := fun _ => false } "u" "d"
    true true (by decide)

/-! ## C1 — who rejects the both-flags-false combination

`DownloadWorker.run` has no guard on
`download_video = download_audio = False`: it checks dependencies,
spawns the metadata engine, and (both legs skipped) signals success.
Only the front-end's `start_download` rejects the combination. -/

/-- C1 counterexample: with both flags false and a healthy environment,
the Orchestrator's `run` does not produce any validation failure — it
spawns the metadata engine and terminates in the success state. -/
theorem claim_C1_counterexample :
    (DownloadWorker.run envOK "u" "d" false false).2 =
      RunResult.finished "d" ∧
    Event.spawn (metaCmd "u") ∈
      (DownloadWorker.run envOK "u" "d" false false).1 := by
  constructor
  · decide
  · decide

/-- C1 amended: the both-flags-false combination is rejected only by
the front-end — `start_download` shows the validation error and starts
no worker — while the Orchestrator's `run` itself accepts it, performs
CHECK_DEPS, spawns the metadata engine, and terminates in the success
state when dependencies and metadata fetch succeed. -/
theorem claim_C1_frontend_validation (urlText outputPathText : String)
    (env : Env) (url outputPath : String) (info : PyObj)
    (hu : pyStripStr urlText ≠ "") (ho : pyStripStr outputPathText ≠ "")
    (hw1 : env.which "yt-dlp" = true) (hw2 : env.which "ffmpeg" = true)
    (hmk : env.mkdirError = none) (hexit : env.metaResult.exitCode = 0)
    (hparse : env.metaParse = some info) (htruthy : info.truthy = true) :
    start_download urlText outputPathText false false =
      StartOutcome.rejected "Please select at least one format to download" ∧
    (DownloadWorker.run env url outputPath false false).2 =
      RunResult.finished outputPath ∧
    Event.spawn (metaCmd url) ∈
      (DownloadWorker.run env url outputPath false false).1 := by
  have hmiss : check_dependencies env = [] := by
    simp [check_dependencies, hw1, hw2]
  refine ⟨?_, ?_, ?_⟩
  · simp [start_download, hu, ho]
  · simp [DownloadWorker.run, videoStep, audioStep, hmiss, hmk, hexit,
      hparse, htruthy]
  · simp [DownloadWorker.run, videoStep, audioStep, hmiss, hmk, hexit,
      hparse, htruthy]

/-- Closed witness for the amended C1. -/
theorem claim_C1_witness :
    start_download "u" "d" false false =
      StartOutcome.rejected "Please select at least one format to download" ∧
    (DownloadWorker.run envOK "u" "d" false false).2 =
      RunResult.finished "d" ∧
    Event.spawn (metaCmd "u") ∈
      (DownloadWorker.run envOK "u" "d" false false).1 :=
  claim_C1_frontend_validation "u" "d" envOK "u" "d"
    { truthy := true, title := some "T" } (by decide) (by decide)
    (by decide) (by decide) (by decide) (by decide) (by decide) (by decide)

/-! ## C6 — metadata failures -/


/-- C6 counterexample: on unparsable metadata output the run does halt,
but the carried text is the JSON parser's message — the engine's
diagnostic text (`"boom"` on stderr) does not occur in it. -/
theorem claim_C6_counterexample :
    (DownloadWorker.run envBadMeta "u" "d" true true).2 =
      RunResult.metaError "Error while getting video info: Expecting value" ∧
    envBadMeta.metaResult.stderr = "boom" ∧
    ¬ ("boom".toList <:+:
        "Error while getting video info: Expecting value".toList) := by
  refine ⟨by decide, by decide, by decide⟩

/-- C6 amended: a non-zero metadata exit or unparsable metadata output
halts the run in the metadata-error terminal state; on non-zero exit
the carried message embeds the engine's stderr (or a fixed default when
stderr is empty), while on unparsable output it carries the JSON
parser's message instead of the engine's diagnostic text. -/
theorem claim_C6_metadata_error (env : Env) (url outputPath : String)
    (downloadVideo downloadAudio : Bool)
    (hw1 : env.which "yt-dlp" = true) (hw2 : env.which "ffmpeg" = true)
    (hmk : env.mkdirError = none) :
    (env.metaResult.exitCode ≠ 0 →
      (DownloadWorker.run env url outputPath downloadVideo
          downloadAudio).2 =
        RunResult.metaError (metaErrorMsg env.metaResult) ∧
      (env.metaResult.stderr ≠ "" →
        env.metaResult.stderr.toList <:+:
          (metaErrorMsg env.metaResult).toList)) ∧
    (env.metaResult.exitCode = 0 → env.metaParse = none →
      (DownloadWorker.run env url outputPath downloadVideo
          downloadAudio).2 =
        RunResult.metaError
          ("Error while getting video info: " ++ env.metaParseErr)) := by
  have hmiss : check_dependencies env = [] := by
    simp [check_dependencies, hw1, hw2]
  constructor
  · intro hexit
    constructor
    · simp [DownloadWorker.run, hmiss, hmk, hexit]
    · intro hne
      refine ⟨("Error getting video info: ").toList, [], ?_⟩
      simp [metaErrorMsg, hne, String.toList]
  · intro hexit hparse
    simp [DownloadWorker.run, hmiss, hmk, hexit, hparse]


/-- Closed witness for the amended C6, at `envMetaFail`. -/
theorem claim_C6_witness :
    ((envMetaFail.metaResult.exitCode ≠ 0 →
      (DownloadWorker.run envMetaFail "u" "d" true true).2 =
        RunResult.metaError (metaErrorMsg envMetaFail.metaResult) ∧
      (envMetaFail.metaResult.stderr ≠ "" →
        envMetaFail.metaResult.stderr.toList <:+:
          (metaErrorMsg envMetaFail.metaResult).toList)) ∧
    (envMetaFail.metaResult.exitCode = 0 → envMetaFail.metaParse = none →
      (DownloadWorker.run envMetaFail "u" "d" true true).2 =
        RunResult.metaError ("Error while getting video info: " ++
          envMetaFail.metaParseErr))) :=
  claim_C6_metadata_error envMetaFail "u" "d" true true
    (by decide) (by decide) (by decide)

/-! ## C7 — unparsable lines: no progress, but `strip`ped logging -/

/-- C7 counterexample: the loop logs `line.strip()`, not the line as
read — a line with a trailing newline is not forwarded verbatim (no
progress value is emitted for it, as claimed). -/
theorem claim_C7_counterexample :
    eventsOfLines ["no percent here\n"] = [Event.log "no percent here"] ∧
    "no percent here" ≠ "no percent here\n" := by
  refine ⟨by decide, by decide⟩

/-- C7 amended: a non-empty line that yields no parsable percentage
emits no progress value, and is forwarded to the log stream with
leading and trailing whitespace stripped (not verbatim). -/
theorem claim_C7_unparsable_line (line : String) (hne : line ≠ "")
    (hnp : parsePct line = none) :
    lineEvents line = [Event.log (pyStripStr line)] ∧
    progressValues (eventsOfLines [line]) = [] ∧
    eventsOfLines [line] = [Event.log (pyStripStr line)] := by
  have h1 : lineEvents line = [Event.log (pyStripStr line)] := by
    simp [lineEvents, hnp]
  refine ⟨h1, ?_, ?_⟩ <;>
    simp [eventsOfLines, hne, h1, progressValues_cons_log,
      progressValues_nil]

/-- Closed witness for the amended C7 at the line `"hello there\n"`. -/
theorem claim_C7_witness :
    lineEvents "hello there\n" =
      [Event.log (pyStripStr "hello there\n")] ∧
    progressValues (eventsOfLines ["hello there\n"]) = [] ∧
    eventsOfLines ["hello there\n"] =
      [Event.log (pyStripStr "hello there\n")] :=
  claim_C7_unparsable_line "hello there\n" (by decide) (by decide)

/-! ## C5 — progress range and monotonicity -/

/-- C5 counterexample: the scraped percentage is neither clamped nor
checked for monotonicity — the lines `200%`, `50%`, `10%` make the
loop emit `110` (outside `[30,70]`) followed by the decreasing
`50, 34`. -/
theorem claim_C5_counterexample :
    progressValues (eventsOfLines ["200%", "50%", "10%"]) =
      [110, 50, 34] ∧
    ¬ ((110 : ℤ) ≤ 70) ∧ ¬ ((50 : ℤ) ≤ 34) := by
  refine ⟨by decide, by decide, by decide⟩

/-- C5 amended: provided every percentage parsed from the engine's
lines lies in `[0,100]` and the parsed sequence is non-decreasing, the
FETCH_VIDEO progress values lie in `[30,70]` and are non-decreasing,
and over a full successful run (video and audio both requested and
every step succeeding) the emitted progress sequence is
`10, 20, 30, …rescaled values…, 70, 100` — non-decreasing from the
initial 0 up to 100.  Without that proviso the loop emits unclamped,
possibly decreasing values (see the counterexample). -/
theorem claim_C5_progress (env : Env) (url outputPath : String)
    (info : PyObj)
    (hw1 : env.which "yt-dlp" = true) (hw2 : env.which "ffmpeg" = true)
    (hmk : env.mkdirError = none) (hexit : env.metaResult.exitCode = 0)
    (hparse : env.metaParse = some info) (htruthy : info.truthy = true)
    (hv : env.videoExit = 0) (ha : env.audioResult.exitCode = 0)
    (hrange : ∀ p ∈ env.videoLines.filterMap parsePct,
      0 ≤ p.toRat ∧ p.toRat ≤ 100)
    (hmono : List.Pairwise (fun a b => a.toRat ≤ b.toRat)
      (env.videoLines.filterMap parsePct)) :
    (∀ v ∈ progressValues (eventsOfLines env.videoLines),
      30 ≤ v ∧ v ≤ 70) ∧
    (progressValues (eventsOfLines env.videoLines)).Sorted (· ≤ ·) ∧
    progressValues ((DownloadWorker.run env url outputPath true true).1) =
      [10, 20, 30] ++
        (env.videoLines.filterMap parsePct).map scalePct ++ [70, 100] ∧
    (0 :: progressValues
        ((DownloadWorker.run env url outputPath true true).1)).Sorted
      (· ≤ ·) := by
  have hmiss : check_dependencies env = [] := by
    simp [check_dependencies, hw1, hw2]
  have hMmem : ∀ v ∈ (env.videoLines.filterMap parsePct).map scalePct,
      30 ≤ v ∧ v ≤ 70 := by
    intro v hv'
    rcases List.mem_map.mp hv' with ⟨p, hp, rfl⟩
    exact scalePct_mem_Icc p (hrange p hp).1 (hrange p hp).2
  have hMsorted :
      ((env.videoLines.filterMap parsePct).map scalePct).Sorted (· ≤ ·) :=
    sorted_map_scalePct _ (fun p hp => (hrange p hp).1) hmono
  have htrace :
      progressValues ((DownloadWorker.run env url outputPath true true).1) =
        [10, 20, 30] ++
          (env.videoLines.filterMap parsePct).map scalePct ++ [70, 100] := by
    simp [DownloadWorker.run, videoStep, audioStep, videoLeg, audioLeg,
      hmiss, hmk, hexit,
      hparse, htruthy, hv, ha, progressValues_append,
      progressValues_cons_log, progressValues_cons_status,
      progressValues_cons_spawn, progressValues_cons_finished,
      progressValues_cons_progress, progressValues_nil,
      progressValues_eventsOfLines]
  refine ⟨?_, ?_, htrace, ?_⟩
  · rw [progressValues_eventsOfLines]; exact hMmem
  · rw [progressValues_eventsOfLines]; exact hMsorted
  · rw [htrace]
    have htail : ∀ b ∈ (env.videoLines.filterMap parsePct).map scalePct ++
        ([70, 100] : List ℤ), 30 ≤ b := by
      intro b hb
      rcases List.mem_append.mp hb with hb | hb
      · exact (hMmem b hb).1
      · simp only [List.mem_cons, List.not_mem_nil, or_false] at hb
        rcases hb with rfl | rfl <;> omega
    have hS1 : ((env.videoLines.filterMap parsePct).map scalePct ++
        ([70, 100] : List ℤ)).Sorted (· ≤ ·) := by
      rw [List.Sorted, List.pairwise_append]
      refine ⟨hMsorted, ?_, ?_⟩
      · simp
      · intro a ha' b hb'
        have h70 := (hMmem a ha').2
        simp only [List.mem_cons, List.not_mem_nil, or_false] at hb'
        rcases hb' with rfl | rfl <;> omega
    simp only [List.cons_append, List.nil_append]
    rw [List.Sorted, List.pairwise_cons]
    refine ⟨?_, ?_⟩
    · intro b hb
      simp only [List.mem_cons] at hb
      rcases hb with rfl | rfl | rfl | hb
      · omega
      · omega
      · omega
      · exact le_trans (by omega) (htail b hb)
    rw [List.pairwise_cons]
    refine ⟨?_, ?_⟩
    · intro b hb
      simp only [List.mem_cons] at hb
      rcases hb with rfl | rfl | hb
      · omega
      · omega
      · exact le_trans (by omega) (htail b hb)
    rw [List.pairwise_cons]
    refine ⟨?_, ?_⟩
    · intro b hb
      simp only [List.mem_cons] at hb
      rcases hb with rfl | hb
      · omega
      · exact le_trans (by omega) (htail b hb)
    rw [List.pairwise_cons]
    exact ⟨htail, hS1⟩


/-- Closed witness for the amended C5, at `envLines`. -/
theorem claim_C5_witness :
    (∀ v ∈ progressValues (eventsOfLines envLines.videoLines),
      30 ≤ v ∧ v ≤ 70) ∧
    (progressValues (eventsOfLines envLines.videoLines)).Sorted (· ≤ ·) ∧
    progressValues ((DownloadWorker.run envLines "u" "d" true true).1) =
      [10, 20, 30] ++
        (envLines.videoLines.filterMap parsePct).map scalePct ++
        [70, 100] ∧
    (0 :: progressValues
        ((DownloadWorker.run envLines "u" "d" true true).1)).Sorted
      (· ≤ ·) := by
  have hps : envLines.videoLines.filterMap parsePct =
      [⟨25, 0⟩, ⟨755, 1⟩] := by decide
  refine claim_C5_progress envLines "u" "d"
    { truthy := true, title := some "T" } (by decide) (by decide)
    (by decide) (by decide) (by decide) (by decide) (by decide)
    (by decide) ?_ ?_
  · intro p hp
    rw [hps] at hp
    simp only [List.mem_cons, List.not_mem_nil, or_false] at hp
    rcases hp with rfl | rfl <;> norm_num [DecNum.toRat]
  · rw [hps]
    refine List.Pairwise.cons ?_ (List.pairwise_singleton _ _)
    intro b hb
    simp only [List.mem_cons, List.not_mem_nil, or_false] at hb
    subst hb
    norm_num [DecNum.toRat]

/-! ## Spawn-counting helpers for C2 and C8 -/

/-- The streaming loop spawns nothing, in particular no fallback. -/
theorem eventsOfLines_fallback_count (ls : List String) :
    (eventsOfLines ls).countP isFallbackSpawn = 0 :=
  countP_eventsOfLines_eq_zero isFallbackSpawn (fun _ => rfl) (fun _ => rfl) ls

/-- The streaming loop spawns no audio subprocess either. -/
theorem eventsOfLines_audio_count (ls : List String) :
    (eventsOfLines ls).countP isAudioSpawn = 0 :=
  countP_eventsOfLines_eq_zero isAudioSpawn (fun _ => rfl) (fun _ => rfl) ls

/-- The video leg spawns the fallback exactly once when the primary
fetch exits non-zero, and never otherwise. -/
theorem videoLeg_fallback_count (env : Env) (url videoFile : String) :
    ((videoLeg env url videoFile).events).countP isFallbackSpawn =
      if env.videoExit ≠ 0 then 1 else 0 := by
  by_cases hv : env.videoExit = 0 <;>
    by_cases hf : env.fallbackResult.exitCode = 0 <;>
      simp [videoLeg, LegResult.events, hv, hf, List.countP_append,
        List.countP_cons, isFallbackSpawn, videoCmd, fallbackCmd,
        eventsOfLines_fallback_count]

/-- The video leg never spawns an audio subprocess. -/
theorem videoLeg_audio_count (env : Env) (url videoFile : String) :
    ((videoLeg env url videoFile).events).countP isAudioSpawn = 0 := by
  by_cases hv : env.videoExit = 0 <;>
    by_cases hf : env.fallbackResult.exitCode = 0 <;>
      simp [videoLeg, LegResult.events, hv, hf, List.countP_append,
        List.countP_cons, isAudioSpawn, videoCmd, fallbackCmd,
        eventsOfLines_audio_count]

/-- The audio leg never spawns the fallback video fetch. -/
theorem audioLeg_fallback_count (env : Env)
    (url videoFile audioFile : String) (downloadVideo : Bool) :
    ((audioLeg env url videoFile audioFile
        downloadVideo).events).countP isFallbackSpawn = 0 := by
  by_cases hdv : downloadVideo <;>
    by_cases ha : env.audioResult.exitCode = 0 <;>
      by_cases hd : env.audioDirectResult.exitCode = 0 <;>
        simp [audioLeg, LegResult.events, hdv, ha, hd, List.countP_append,
          List.countP_cons, isFallbackSpawn, ffmpegCmd, audioDirectCmd]

/-- The optional video step spawns the fallback at most once. -/
theorem videoStep_fallback_le (env : Env) (url videoFile : String)
    (downloadVideo : Bool) :
    ((videoStep env url videoFile downloadVideo).events).countP
      isFallbackSpawn ≤ 1 := by
  cases downloadVideo with
  | false => simp [videoStep, LegResult.events]
  | true =>
    simp only [videoStep, if_pos, videoLeg_fallback_count]
    split <;> omega

/-- The optional audio step never spawns the fallback. -/
theorem audioStep_fallback_count (env : Env)
    (url videoFile audioFile : String)
    (downloadVideo downloadAudio : Bool) :
    ((audioStep env url videoFile audioFile downloadVideo
        downloadAudio).events).countP isFallbackSpawn = 0 := by
  cases downloadAudio with
  | false => simp [audioStep, LegResult.events]
  | true => simp [audioStep, audioLeg_fallback_count]

/-- The optional video step never spawns an audio subprocess. -/
theorem videoStep_audio_count (env : Env) (url videoFile : String)
    (downloadVideo : Bool) :
    ((videoStep env url videoFile downloadVideo).events).countP
      isAudioSpawn = 0 := by
  cases downloadVideo with
  | false => simp [videoStep, LegResult.events]
  | true => simp [videoStep, videoLeg_audio_count]

/-- Across every environment, locator, output path and option pair,
the GUI run spawns the `-f best` fallback at most once. -/
theorem run_fallback_at_most_once (env : Env) (url outputPath : String)
    (downloadVideo downloadAudio : Bool) :
    (DownloadWorker.run env url outputPath downloadVideo
        downloadAudio).1.countP isFallbackSpawn ≤ 1 := by
  by_cases hmiss : check_dependencies env = []
  · cases hmk : env.mkdirError with
    | some e =>
      simp [DownloadWorker.run, hmiss, hmk, isFallbackSpawn,
        List.countP_cons]
    | none =>
      by_cases hexit : env.metaResult.exitCode = 0
      · cases hparse : env.metaParse with
        | none =>
          simp [DownloadWorker.run, hmiss, hmk, hexit, hparse,
            isFallbackSpawn, metaCmd, List.countP_cons]
        | some info =>
          by_cases htruthy : info.truthy
          · rw [show (DownloadWorker.run env url outputPath downloadVideo
                downloadAudio) = (DownloadWorker.run env url outputPath
                downloadVideo downloadAudio) from rfl]
            simp only [DownloadWorker.run]
            rw [if_neg (by simp [hmiss]), hmk, hexit, hparse]
            simp only [htruthy, Bool.not_true, if_neg (by simp : ¬ (0:ℤ) ≠ 0),
              Bool.false_eq_true, if_false]
            set vf := pyJoin outputPath
              (sanitize_filename (info.title.getD "video") ++ ".mp4") with hvf
            set af := pyJoin outputPath
              (sanitize_filename (info.title.getD "video") ++ ".mp3") with haf
            cases hveq : videoStep env url vf downloadVideo with
            | fail vev m =>
              have hle : vev.countP isFallbackSpawn ≤ 1 := by
                have h2 := videoStep_fallback_le env url vf downloadVideo
                rw [hveq] at h2
                simpa [LegResult.events] using h2
              simp [List.countP_append, List.countP_cons, isFallbackSpawn,
                metaCmd]
              omega
            | ok vev =>
              have hle : vev.countP isFallbackSpawn ≤ 1 := by
                have h2 := videoStep_fallback_le env url vf downloadVideo
                rw [hveq] at h2
                simpa [LegResult.events] using h2
              cases haeq : audioStep env url vf af downloadVideo
                  downloadAudio with
              | fail aev m =>
                have ha0 : aev.countP isFallbackSpawn = 0 := by
                  have h2 := audioStep_fallback_count env url vf af
                    downloadVideo downloadAudio
                  rw [haeq] at h2
                  simpa [LegResult.events] using h2
                simp [List.countP_append, List.countP_cons,
                  isFallbackSpawn, metaCmd, ha0]
                omega
              | ok aev =>
                have ha0 : aev.countP isFallbackSpawn = 0 := by
                  have h2 := audioStep_fallback_count env url vf af
                    downloadVideo downloadAudio
                  rw [haeq] at h2
                  simpa [LegResult.events] using h2
                simp [List.countP_append, List.countP_cons,
                  isFallbackSpawn, metaCmd, ha0]
                omega
          · simp [DownloadWorker.run, hmiss, hmk, hexit, hparse, htruthy,
              isFallbackSpawn, metaCmd, List.countP_cons]
      · simp [DownloadWorker.run, hmiss, hmk, hexit, isFallbackSpawn,
          metaCmd, List.countP_cons]
  · simp [DownloadWorker.run, hmiss, isFallbackSpawn, List.countP_cons]

/-- Across every environment, locator and output path, the CLI run
spawns the `-f best` fallback at most once. -/
theorem cli_fallback_at_most_once (env : Env) (url outputPath : String) :
    (download_video env url outputPath).1.countP isFallbackSpawn ≤ 1 := by
  by_cases hmiss : check_dependencies env = []
  · cases hmk : env.mkdirError with
    | some e =>
      simp [download_video, check_dependencies_cli, hmiss, hmk,
        isFallbackSpawn, List.countP_cons, List.countP_append]
    | none =>
      by_cases hexit : env.metaResult.exitCode = 0
      · cases hparse : env.metaParse with
        | none =>
          simp [download_video, check_dependencies_cli, hmiss, hmk, hexit,
            hparse, isFallbackSpawn, metaCmd, List.countP_cons,
            List.countP_append]
        | some info =>
          by_cases htruthy : info.truthy
          · by_cases hvfail : env.videoResult.exitCode = 0
            · by_cases ha : env.audioResult.exitCode = 0 <;>
                simp [download_video, check_dependencies_cli, hmiss, hmk,
                  hexit, hparse, htruthy, hvfail, ha, isFallbackSpawn,
                  metaCmd, videoCmdCLI, fallbackCmd, ffmpegCmd,
                  List.countP_cons, List.countP_append]
            · by_cases hfb : env.fallbackResult.exitCode = 0
              · by_cases ha : env.audioResult.exitCode = 0 <;>
                  simp [download_video, check_dependencies_cli, hmiss, hmk,
                    hexit, hparse, htruthy, hvfail, hfb, ha,
                    isFallbackSpawn, metaCmd, videoCmdCLI, fallbackCmd,
                    ffmpegCmd, List.countP_cons, List.countP_append]
              · simp [download_video, check_dependencies_cli, hmiss, hmk,
                  hexit, hparse, htruthy, hvfail, hfb, isFallbackSpawn,
                  metaCmd, videoCmdCLI, fallbackCmd, List.countP_cons,
                  List.countP_append]
          · simp [download_video, check_dependencies_cli, hmiss, hmk,
              hexit, hparse, htruthy, isFallbackSpawn, metaCmd,
              List.countP_cons, List.countP_append]
      · simp [download_video, check_dependencies_cli, hmiss, hmk, hexit,
          isFallbackSpawn, metaCmd, List.countP_cons, List.countP_append]
  · simp [download_video, check_dependencies_cli, hmiss, isFallbackSpawn,
      List.countP_cons]

/-- Under a reachable FETCH_VIDEO step, the GUI run's fallback count is
exactly one when and only when the primary fetch exits non-zero. -/
theorem run_fallback_count (env : Env) (url outputPath : String)
    (info : PyObj) (downloadAudio : Bool)
    (hmiss : check_dependencies env = []) (hmk : env.mkdirError = none)
    (hexit : env.metaResult.exitCode = 0)
    (hparse : env.metaParse = some info) (htruthy : info.truthy = true) :
    (DownloadWorker.run env url outputPath true downloadAudio).1.countP
        isFallbackSpawn = if env.videoExit ≠ 0 then 1 else 0 := by
  simp only [DownloadWorker.run]
  rw [if_neg (by simp [hmiss]), hmk, hexit, hparse]
  simp only [htruthy, Bool.not_true, if_neg (by simp : ¬ (0:ℤ) ≠ 0),
    Bool.false_eq_true, if_false]
  set vf := pyJoin outputPath
    (sanitize_filename (info.title.getD "video") ++ ".mp4") with hvf
  set af := pyJoin outputPath
    (sanitize_filename (info.title.getD "video") ++ ".mp3") with haf
  have hvc : ((videoStep env url vf true).events).countP isFallbackSpawn =
      if env.videoExit ≠ 0 then 1 else 0 := by
    simp [videoStep, videoLeg_fallback_count]
  cases hveq : videoStep env url vf true with
  | fail vev m =>
    rw [hveq] at hvc
    simp only [LegResult.events] at hvc
    simp [List.countP_append, List.countP_cons, isFallbackSpawn, metaCmd,
      hvc]
  | ok vev =>
    rw [hveq] at hvc
    simp only [LegResult.events] at hvc
    cases haeq : audioStep env url vf af true downloadAudio with
    | fail aev m =>
      have ha0 : aev.countP isFallbackSpawn = 0 := by
        have h2 := audioStep_fallback_count env url vf af true downloadAudio
        rw [haeq] at h2
        simpa [LegResult.events] using h2
      simp [List.countP_append, List.countP_cons, isFallbackSpawn, metaCmd,
        hvc, ha0]
    | ok aev =>
      have ha0 : aev.countP isFallbackSpawn = 0 := by
        have h2 := audioStep_fallback_count env url vf af true downloadAudio
        rw [haeq] at h2
        simpa [LegResult.events] using h2
      simp [List.countP_append, List.countP_cons, isFallbackSpawn, metaCmd,
        hvc, ha0]

/-- Under a reachable video fetch, the CLI run's fallback count is
exactly one when and only when its primary fetch exits non-zero. -/
theorem cli_fallback_count (env : Env) (url outputPath : String)
    (info : PyObj)
    (hmiss : check_dependencies env = []) (hmk : env.mkdirError = none)
    (hexit : env.metaResult.exitCode = 0)
    (hparse : env.metaParse = some info) (htruthy : info.truthy = true) :
    (download_video env url outputPath).1.countP isFallbackSpawn =
      if env.videoResult.exitCode ≠ 0 then 1 else 0 := by
  by_cases hvfail : env.videoResult.exitCode = 0
  · by_cases ha : env.audioResult.exitCode = 0 <;>
      simp [download_video, check_dependencies_cli, hmiss, hmk, hexit,
        hparse, htruthy, hvfail, ha, isFallbackSpawn, metaCmd, videoCmdCLI,
        fallbackCmd, ffmpegCmd, List.countP_cons, List.countP_append]
  · by_cases hfb : env.fallbackResult.exitCode = 0
    · by_cases ha : env.audioResult.exitCode = 0 <;>
        simp [download_video, check_dependencies_cli, hmiss, hmk, hexit,
          hparse, htruthy, hvfail, hfb, ha, isFallbackSpawn, metaCmd,
          videoCmdCLI, fallbackCmd, ffmpegCmd, List.countP_cons,
          List.countP_append]
    · simp [download_video, check_dependencies_cli, hmiss, hmk, hexit,
        hparse, htruthy, hvfail, hfb, isFallbackSpawn, metaCmd,
        videoCmdCLI, fallbackCmd, List.countP_cons, List.countP_append]

/-! ## C2 — exactly one maximally permissive fallback -/

/-- C2: when the FETCH_VIDEO step is reached and the primary fetch
exits non-zero, both front-ends spawn the `-f best` fallback exactly
once; if the fallback also exits non-zero, the GUI run halts in the
video-error terminal state carrying the second attempt's stderr and the
CLI prints the second attempt's stderr and fails; and in every run
whatsoever the fallback is spawned at most once. -/
theorem claim_C2_single_fallback (env : Env) (url outputPath : String)
    (info : PyObj) (downloadAudio : Bool)
    (hw1 : env.which "yt-dlp" = true) (hw2 : env.which "ffmpeg" = true)
    (hmk : env.mkdirError = none) (hexit : env.metaResult.exitCode = 0)
    (hparse : env.metaParse = some info) (htruthy : info.truthy = true)
    (hvfail : env.videoExit ≠ 0)
    (hclifail : env.videoResult.exitCode ≠ 0) :
    (DownloadWorker.run env url outputPath true downloadAudio).1.countP
        isFallbackSpawn = 1 ∧
    (env.fallbackResult.exitCode ≠ 0 →
      (DownloadWorker.run env url outputPath true downloadAudio).2 =
        RunResult.videoError ("Error downloading video: " ++
          env.fallbackResult.stderr)) ∧
    (download_video env url outputPath).1.countP isFallbackSpawn = 1 ∧
    (env.fallbackResult.exitCode ≠ 0 →
      (download_video env url outputPath).2 = false ∧
      Event.log ("Error downloading video (second attempt): " ++
          env.fallbackResult.stderr) ∈
        (download_video env url outputPath).1) ∧
    (∀ (env2 : Env) (url2 outputPath2 : String) (dv da : Bool),
      (DownloadWorker.run env2 url2 outputPath2 dv da).1.countP
        isFallbackSpawn ≤ 1) ∧
    (∀ (env2 : Env) (url2 outputPath2 : String),
      (download_video env2 url2 outputPath2).1.countP
        isFallbackSpawn ≤ 1) := by
  have hmiss : check_dependencies env = [] := by
    simp [check_dependencies, hw1, hw2]
  refine ⟨?_, ?_, ?_, ?_, ?_, ?_⟩
  · rw [run_fallback_count env url outputPath info downloadAudio hmiss
      hmk hexit hparse htruthy]
    simp [hvfail]
  · intro hfb
    simp [DownloadWorker.run, videoStep, audioStep, videoLeg, hmiss, hmk,
      hexit, hparse, htruthy, hvfail, hfb]
  · rw [cli_fallback_count env url outputPath info hmiss hmk hexit hparse
      htruthy]
    simp [hclifail]
  · intro hfb
    constructor <;>
      simp [download_video, check_dependencies_cli, hmiss, hmk, hexit,
        hparse, htruthy, hclifail, hfb]
  · exact fun env2 url2 outputPath2 dv da =>
      run_fallback_at_most_once env2 url2 outputPath2 dv da
  · exact fun env2 url2 outputPath2 =>
      cli_fallback_at_most_once env2 url2 outputPath2


/-- Closed witness for C2, at `envVideoFail`. -/
theorem claim_C2_witness :
    (DownloadWorker.run envVideoFail "u" "d" true true).1.countP
        isFallbackSpawn = 1 ∧
    (envVideoFail.fallbackResult.exitCode ≠ 0 →
      (DownloadWorker.run envVideoFail "u" "d" true true).2 =
        RunResult.videoError ("Error downloading video: " ++
          envVideoFail.fallbackResult.stderr)) ∧
    (download_video envVideoFail "u" "d").1.countP isFallbackSpawn = 1 ∧
    (envVideoFail.fallbackResult.exitCode ≠ 0 →
      (download_video envVideoFail "u" "d").2 = false ∧
      Event.log ("Error downloading video (second attempt): " ++
          envVideoFail.fallbackResult.stderr) ∈
        (download_video envVideoFail "u" "d").1) ∧
    (∀ (env2 : Env) (url2 outputPath2 : String) (dv da : Bool),
      (DownloadWorker.run env2 url2 outputPath2 dv da).1.countP
        isFallbackSpawn ≤ 1) ∧
    (∀ (env2 : Env) (url2 outputPath2 : String),
      (download_video env2 url2 outputPath2).1.countP
        isFallbackSpawn ≤ 1) :=
  claim_C2_single_fallback envVideoFail "u" "d"
    { truthy := true, title := some "T" } true (by decide) (by decide)
    (by decide) (by decide) (by decide) (by decide) (by decide) (by decide)

/-! ## C8 — no audio extraction after a failed video fetch -/

/-- C8: with audio requested, when metadata fetch succeeds but both
video-fetch attempts exit non-zero, the GUI run terminates in the
video-error terminal state and spawns no audio subprocess; the CLI run
likewise fails without spawning any audio subprocess. -/
theorem claim_C8_no_audio_after_video_failure (env : Env)
    (url outputPath : String) (info : PyObj)
    (hw1 : env.which "yt-dlp" = true) (hw2 : env.which "ffmpeg" = true)
    (hmk : env.mkdirError = none) (hexit : env.metaResult.exitCode = 0)
    (hparse : env.metaParse = some info) (htruthy : info.truthy = true)
    (hvfail : env.videoExit ≠ 0) (hfb : env.fallbackResult.exitCode ≠ 0)
    (hclifail : env.videoResult.exitCode ≠ 0) :
    (DownloadWorker.run env url outputPath true true).2 =
      RunResult.videoError ("Error downloading video: " ++
        env.fallbackResult.stderr) ∧
    (DownloadWorker.run env url outputPath true true).1.countP
      isAudioSpawn = 0 ∧
    (download_video env url outputPath).2 = false ∧
    (download_video env url outputPath).1.countP isAudioSpawn = 0 := by
  have hmiss : check_dependencies env = [] := by
    simp [check_dependencies, hw1, hw2]
  refine ⟨?_, ?_, ?_, ?_⟩
  · simp [DownloadWorker.run, videoStep, audioStep, videoLeg, hmiss, hmk,
      hexit, hparse, htruthy, hvfail, hfb]
  · simp [DownloadWorker.run, videoStep, audioStep, videoLeg, hmiss, hmk,
      hexit, hparse, htruthy, hvfail, hfb, List.countP_append,
      List.countP_cons, isAudioSpawn, metaCmd, videoCmd, fallbackCmd,
      eventsOfLines_audio_count]
  · simp [download_video, check_dependencies_cli, hmiss, hmk, hexit,
      hparse, htruthy, hclifail, hfb]
  · simp [download_video, check_dependencies_cli, hmiss, hmk, hexit,
      hparse, htruthy, hclifail, hfb, List.countP_append,
      List.countP_cons, isAudioSpawn, metaCmd, videoCmdCLI, fallbackCmd]

/-- Closed witness for C8, at `envVideoFail`. -/
theorem claim_C8_witness :
    (DownloadWorker.run envVideoFail "u" "d" true true).2 =
      RunResult.videoError ("Error downloading video: " ++
        envVideoFail.fallbackResult.stderr) ∧
    (DownloadWorker.run envVideoFail "u" "d" true true).1.countP
      isAudioSpawn = 0 ∧
    (download_video envVideoFail "u" "d").2 = false ∧
    (download_video envVideoFail "u" "d").1.countP isAudioSpawn = 0 :=
  claim_C8_no_audio_after_video_failure envVideoFail "u" "d"
    { truthy := true, title := some "T" } (by decide) (by decide)
    (by decide) (by decide) (by decide) (by decide) (by decide)
    (by decide) (by decide)
